import Mathlib

/-!
Shallow embedding of the CSRF middleware in `src/middleware/csrf/csrf.go`
(package `csrf` of the fiber repository), together with proofs of the
spec claims about it.

The request context is modelled as a record of already-parsed string maps
(headers keyed by their canonical MIME names, query parameters, route
parameters, form fields, cookies).  The per-request handler built by `New`
is modelled as a pure function from configuration, selected extractor,
token-store contents, current time and request to an outcome, a trace of
token-store operations, and the response mutations (Set-Cookie entries,
Vary headers, context locals).  Time is an integer timestamp; cookie
expiries are absolute timestamps computed from it.
-/

namespace Csrf

/-- A parsed HTTP request as the middleware consumes it: the method string
and the already-parsed string maps fiber exposes via `c.Get`, `c.Query`,
`c.Params`, `c.FormValue` and `c.Cookies`.  Headers are keyed by their
canonical MIME names, matching fasthttp's internal canonicalization. -/
structure Request where
  method : String
  headers : List (String × String)
  queries : List (String × String)
  params : List (String × String)
  form : List (String × String)
  cookies : List (String × String)

/-- Lookup of a named string value in parsed request data; fiber's accessors
return the empty string when the name is absent. -/
def lookupKV (l : List (String × String)) (k : String) : String :=
  match l.find? (fun p => p.fst == k) with
  | some p => p.snd
  | none => ""

/-- `c.Get(key)`: read a header by canonical name. -/
def Request.Get (c : Request) (k : String) : String := lookupKV c.headers k

/-- `c.Query(key)`: read a URL query parameter. -/
def Request.Query (c : Request) (k : String) : String := lookupKV c.queries k

/-- `c.Params(key)`: read a route parameter. -/
def Request.Params (c : Request) (k : String) : String := lookupKV c.params k

/-- `c.FormValue(key)`: read a parsed form field. -/
def Request.FormValue (c : Request) (k : String) : String := lookupKV c.form k

/-- `c.Cookies(key)`: read a request cookie by name. -/
def Request.Cookies (c : Request) (k : String) : String := lookupKV c.cookies k

/-- The middleware configuration, with the fields of `Config` that
`csrf.go` reads.  `Storage` is represented by the token-store state passed
to the handler; `Next` is the optional bypass predicate. -/
structure Config where
  KeyLookup : String
  CookieName : String
  CookieDomain : String
  CookiePath : String
  CookieSecure : Bool
  CookieHTTPOnly : Bool
  CookieSameSite : String
  Expiration : Int
  KeyGenerator : Unit → String
  ContextKey : String
  Next : Option (Request → Bool)

/-- Go's `textproto` token table: the bytes allowed in a MIME header
field name (letters, digits and the RFC 7230 token specials). -/
def validHeaderFieldChar (c : Char) : Bool :=
  c.isAlpha || c.isDigit ||
    c = '!' || c = '#' || c = '$' || c = '%' || c = '&' ||
    c = Char.ofNat 39 || c = '*' || c = '+' || c = '-' ||
    c = '.' || c = '^' || c = '_' || c = Char.ofNat 96 ||
    c = '|' || c = '~'

/-- The canonicalization loop of `textproto.CanonicalMIMEHeaderKey`:
uppercase the first letter and every letter following a hyphen,
lowercase everything else. -/
def canonicalizeChars (upper : Bool) : List Char → List Char
  | [] => []
  | c :: rest =>
    let c2 :=
      if upper && c.isLower then c.toUpper
      else if !upper && c.isUpper then c.toLower
      else c
    c2 :: canonicalizeChars (c2 = '-') rest

/-- `textproto.CanonicalMIMEHeaderKey`: returns the input unchanged if it
holds any byte that is not a valid header-field byte, otherwise the
canonical form. -/
def canonicalMIMEHeaderKey (s : String) : String :=
  if s.data.all validHeaderFieldChar then ⟨canonicalizeChars true s.data⟩ else s

/-- The five extraction sources of the middleware. -/
inductive Source
  | header
  | query
  | param
  | form
  | cookie
deriving DecidableEq

/-- The extractor selected at initialization: a source kind and the key
name to look up (already canonicalized for the header source). -/
structure ExtractorConfig where
  source : Source
  key : String
deriving DecidableEq

/-- The distinct missing-token error of each extractor variant
(`errMissingHeader`, `errMissingQuery`, `errMissingParam`,
`errMissingForm`, `errMissingCookie`). -/
inductive ExtractError
  | missingHeader
  | missingQuery
  | missingParam
  | missingForm
  | missingCookie
deriving DecidableEq

/-- `csrfFromHeader`: extract the token from the request header. -/
def csrfFromHeader (param : String) (c : Request) : Except ExtractError String :=
  let token := c.Get param
  if token = "" then .error .missingHeader else .ok token

/-- `csrfFromQuery`: extract the token from the query string. -/
def csrfFromQuery (param : String) (c : Request) : Except ExtractError String :=
  let token := c.Query param
  if token = "" then .error .missingQuery else .ok token

/-- `csrfFromParam`: extract the token from the url param string. -/
def csrfFromParam (param : String) (c : Request) : Except ExtractError String :=
  let token := c.Params param
  if token = "" then .error .missingParam else .ok token

/-- `csrfFromForm`: extract the token from a form field. -/
def csrfFromForm (param : String) (c : Request) : Except ExtractError String :=
  let token := c.FormValue param
  if token = "" then .error .missingForm else .ok token

/-- `csrfFromCookie`: extract the token from the cookie header. -/
def csrfFromCookie (param : String) (c : Request) : Except ExtractError String :=
  let token := c.Cookies param
  if token = "" then .error .missingCookie else .ok token

/-- Run the selected extractor against a request. -/
def extract (ec : ExtractorConfig) (c : Request) : Except ExtractError String :=
  match ec.source with
  | .header => csrfFromHeader ec.key c
  | .query => csrfFromQuery ec.key c
  | .param => csrfFromParam ec.key c
  | .form => csrfFromForm ec.key c
  | .cookie => csrfFromCookie ec.key c

/-- Splitting a character list at every occurrence of a separator
character, accumulating the current piece in reverse. -/
def splitOnCharAux (sep : Char) : List Char → List Char → List (List Char)
  | [], acc => [acc.reverse]
  | c :: rest, acc =>
    if c = sep then acc.reverse :: splitOnCharAux sep rest []
    else splitOnCharAux sep rest (c :: acc)

/-- `strings.Split(s, ":")`: split on every colon; the empty string yields
a single empty part, and `n` colons yield `n + 1` parts. -/
def splitColon (s : String) : List String :=
  (splitOnCharAux ':' s.data []).map (fun l => ⟨l⟩)

/-- The initialization part of `New` (csrf.go lines 24-46): split
`KeyLookup` on colons, panic unless exactly two parts, default to the
header extractor on the canonicalized key, override for the recognized
source keywords, and panic on a cookie-source key colliding with
`CookieName`.  A Go panic is modelled as `Except.error` with the panic
message. -/
def newInit (keyLookup cookieName : String) : Except String ExtractorConfig :=
  let selectors := splitColon keyLookup
  if selectors.length ≠ 2 then
    .error "[CSRF] KeyLookup must in the form of <source>:<key>"
  else
    let src := selectors.headD ""
    let key := selectors.getD 1 ""
    if src = "form" then .ok ⟨.form, key⟩
    else if src = "query" then .ok ⟨.query, key⟩
    else if src = "param" then .ok ⟨.param, key⟩
    else if src = "cookie" then
      if key = cookieName then
        .error ("KeyLookup key " ++ key ++ " cannot be the same as CookieName " ++ cookieName)
      else .ok ⟨.cookie, key⟩
    else .ok ⟨.header, canonicalMIMEHeaderKey key⟩

/-- Whether initialization panics for the given `KeyLookup` and
`CookieName`. -/
def initPanics (keyLookup cookieName : String) : Bool :=
  match newInit keyLookup cookieName with
  | .error _ => true
  | .ok _ => false

/-- Modelled from the spec: the storage handler type (`store.go`, with the
`get`, `set` and `delete` methods called by `csrf.go`) is not under `src/`.
Section 4.3 of the spec gives the TokenStore contract — `set` records a
token as valid, `contains` reports validity without mutating, `delete`
removes idempotently — so the store state is the set of currently valid
tokens, represented as a list of token strings. -/
def TokenStore := List String

/-- Modelled from the spec: `contains(token) → bool` — whether the token is
currently valid. -/
def TokenStore.contains (st : TokenStore) (t : String) : Bool :=
  List.contains st t

/-- Modelled from the spec: `set(token)` — unconditionally record the token
as valid. -/
def TokenStore.set (st : TokenStore) (t : String) : TokenStore :=
  t :: st

/-- Modelled from the spec: `delete(token)` — remove the token; idempotent. -/
def TokenStore.delete (st : TokenStore) (t : String) : TokenStore :=
  List.filter (fun x => x ≠ t) st

/-- Modelled from the spec: the guard `store.get(token)` at csrf.go line 100,
whose body is in the missing `store.go`.  Section 4.4 step 3 of the spec
states that the rejection branch it guards fires on store-miss ("an
implementation must treat store-miss as the rejection trigger, not
store-hit"), so `storageGet` returns `true` exactly when the token is not
contained in the store. -/
def storageGet (st : TokenStore) (t : String) : Bool :=
  !(TokenStore.contains st t)

/-- One operation performed on the token store while handling a request;
the handler result carries the trace of these. -/
inductive StoreOp
  | set (t : String)
  | get (t : String)
  | delete (t : String)
deriving DecidableEq

/-- Replay a trace of store operations on a store state (`get` reads only). -/
def applyOps (st : TokenStore) : List StoreOp → TokenStore
  | [] => st
  | .set t :: rest => applyOps (TokenStore.set st t) rest
  | .get _ :: rest => applyOps st rest
  | .delete t :: rest => applyOps (TokenStore.delete st t) rest

/-- An outgoing `fiber.Cookie` as `csrf.go` fills it.  `Expires` is an
absolute integer timestamp. -/
structure Cookie where
  Name : String
  Value : String
  Domain : String
  Path : String
  Expires : Int
  Secure : Bool
  HTTPOnly : Bool
  SameSite : String
deriving DecidableEq

/-- The issuance cookie of the GET branch (csrf.go lines 79-91): carries
the token, expiry `now + Expiration`. -/
def issueCookie (cfg : Config) (now : Int) (token : String) : Cookie :=
  { Name := cfg.CookieName
  , Value := token
  , Domain := cfg.CookieDomain
  , Path := cfg.CookiePath
  , Expires := now + cfg.Expiration
  , Secure := cfg.CookieSecure
  , HTTPOnly := cfg.CookieHTTPOnly
  , SameSite := cfg.CookieSameSite }

/-- The expiry cookie of the failed-verification branch (csrf.go lines
104-113): no value, expiry one minute in the past. -/
def expireCookie (cfg : Config) (now : Int) : Cookie :=
  { Name := cfg.CookieName
  , Value := ""
  , Domain := cfg.CookieDomain
  , Path := cfg.CookiePath
  , Expires := now + (-1) * 60
  , Secure := cfg.CookieSecure
  , HTTPOnly := cfg.CookieHTTPOnly
  , SameSite := cfg.CookieSameSite }

/-- The mutations the handler applies to the response and request context:
Set-Cookie entries, Vary header values, and `c.Locals` writes. -/
structure Response where
  setCookies : List Cookie
  vary : List String
  locals : List (String × String)
deriving DecidableEq

/-- The response with no mutations. -/
def Response.empty : Response :=
  { setCookies := [], vary := [], locals := [] }

/-- A fiber error value; `fiber.ErrForbidden` carries HTTP status 403. -/
structure FiberError where
  Code : Nat
  Message : String
deriving DecidableEq

/-- `fiber.ErrForbidden`. -/
def errForbidden : FiberError :=
  { Code := 403, Message := "Forbidden" }

/-- The handler outcome: continue the stack (`c.Next()`) or return an
error, which fiber renders as the error's status code. -/
inductive Outcome
  | next
  | reject (e : FiberError)
deriving DecidableEq

/-- The observable result of one handler invocation. -/
structure HandlerResult where
  outcome : Outcome
  ops : List StoreOp
  resp : Response
deriving DecidableEq

/-- The bypass check `cfg.Next != nil && cfg.Next(c)` (csrf.go line 51). -/
def bypass (cfg : Config) (c : Request) : Bool :=
  match cfg.Next with
  | some f => f c
  | none => false

/-- The unsafe-method case list of the switch:
`fiber.MethodPost, fiber.MethodDelete, fiber.MethodPatch, fiber.MethodPut`. -/
def isUnsafeMethod (m : String) : Bool :=
  m = "POST" || m = "DELETE" || m = "PATCH" || m = "PUT"

/-- The method switch of the handler (csrf.go lines 64-115).  Returns the
store-operation trace, the cookies set so far, and either an early
`return fiber.ErrForbidden` (`Except.error`) or fall-through with the
resolved `token` variable (`Except.ok`; empty string when no branch set
it). -/
def methodSwitch (cfg : Config) (ext : ExtractorConfig) (st : TokenStore)
    (now : Int) (c : Request) :
    List StoreOp × List Cookie × Except FiberError String :=
  if c.method = "GET" then
    let token := c.Cookies cfg.CookieName
    if token = "" then
      let token := cfg.KeyGenerator ()
      ([StoreOp.set token], [issueCookie cfg now token], .ok token)
    else
      ([], [issueCookie cfg now token], .ok token)
  else if isUnsafeMethod c.method then
    match extract ext c with
    | .error _ => ([], [], .error errForbidden)
    | .ok token =>
      if storageGet st token then
        ([StoreOp.get token, StoreOp.delete token], [expireCookie cfg now], .error errForbidden)
      else
        ([StoreOp.get token], [], .ok token)
  else
    ([], [], .ok "")

/-- The per-request handler returned by `New` (csrf.go lines 49-127): the
bypass check, the method switch, then — only on fall-through — the
`Vary: Cookie` header, the optional `c.Locals(cfg.ContextKey, token)`
write, and `c.Next()`. -/
def handle (cfg : Config) (ext : ExtractorConfig) (st : TokenStore)
    (now : Int) (c : Request) : HandlerResult :=
  if bypass cfg c then
    { outcome := .next, ops := [], resp := Response.empty }
  else
    match methodSwitch cfg ext st now c with
    | (ops, cookies, .error e) =>
      { outcome := .reject e, ops := ops
      , resp := { setCookies := cookies, vary := [], locals := [] } }
    | (ops, cookies, .ok token) =>
      { outcome := .next, ops := ops
      , resp := { setCookies := cookies
                , vary := ["Cookie"]
                , locals := if cfg.ContextKey ≠ "" then [(cfg.ContextKey, token)] else [] } }

/-- A configuration used for concrete evaluations: header lookup,
cookie name `csrf_`, a deterministic generator, no bypass predicate. -/
def cfg0 : Config :=
  { KeyLookup := "header:X-Csrf-Token", CookieName := "csrf_", CookieDomain := ""
  , CookiePath := "/", CookieSecure := false, CookieHTTPOnly := false
  , CookieSameSite := "Lax", Expiration := 3600
  , KeyGenerator := fun _ => "tokG", ContextKey := "csrf", Next := none }

/-- The extractor `newInit` selects for `cfg0`. -/
def ext0 : ExtractorConfig := ⟨Source.header, "X-Csrf-Token"⟩

/-- A request with the given method and no parsed data. -/
def emptyReq (m : String) : Request :=
  { method := m, headers := [], queries := [], params := [], form := [], cookies := [] }

/-- A GET request carrying no CSRF cookie. -/
def getNoCookieReq : Request := emptyReq "GET"

/-- A GET request already carrying the CSRF cookie `tokA`. -/
def getWithCookieReq : Request :=
  { emptyReq "GET" with cookies := [("csrf_", "tokA")] }

/-- A POST request presenting token `tokA` in the header. -/
def postValidReq : Request :=
  { emptyReq "POST" with headers := [("X-Csrf-Token", "tokA")] }

/-- A POST request presenting token `tokB` in the header. -/
def postTokBReq : Request :=
  { emptyReq "POST" with headers := [("X-Csrf-Token", "tokB")] }

/-- A POST request presenting no token anywhere. -/
def postNoTokenReq : Request := emptyReq "POST"

/-- A HEAD request: a method in neither class of the switch. -/
def headReq : Request := emptyReq "HEAD"

/-- `cfg0` with a bypass predicate that always fires. -/
def cfgBypass : Config :=
  { cfg0 with Next := some (fun _ => true) }

theorem isUnsafeMethod_ne_get {m : String} (h : isUnsafeMethod m = true) : ¬ (m = "GET") := by
  intro he
  subst he
  exact absurd h (by decide)

theorem contains_set_self (st : TokenStore) (t : String) :
    TokenStore.contains (TokenStore.set st t) t = true := by
  simp [TokenStore.contains, TokenStore.set, List.contains]

theorem contains_delete_self (st : TokenStore) (t : String) :
    TokenStore.contains (TokenStore.delete st t) t = false := by
  simp [TokenStore.contains, TokenStore.delete, List.contains, List.elem_iff, List.mem_filter]

/-- Claim C1: for every unsafe-method request (POST, PUT, PATCH, DELETE)
whose extracted token is present in the token store, the middleware
continues to the next handler, the store is unchanged — the token is
neither deleted nor rotated, so it remains in the store — and a second
identical request against the resulting store also continues. -/
theorem csrf_unsafe_valid_token_continues (cfg : Config) (ext : ExtractorConfig)
    (st : TokenStore) (now : Int) (c : Request) (t : String)
    (hm : isUnsafeMethod c.method = true)
    (he : extract ext c = .ok t)
    (hs : TokenStore.contains st t = true) :
    (handle cfg ext st now c).outcome = .next ∧
    applyOps st (handle cfg ext st now c).ops = st ∧
    TokenStore.contains (applyOps st (handle cfg ext st now c).ops) t = true ∧
    (handle cfg ext (applyOps st (handle cfg ext st now c).ops) now c).outcome = .next := by
  by_cases hb : bypass cfg c
  · simp [handle, hb, applyOps, hs]
  · have hng := isUnsafeMethod_ne_get hm
    unfold handle methodSwitch
    simp only [hb, if_false, Bool.false_eq_true]
    rw [if_neg hng, if_pos hm, he]
    simp [storageGet, hs, applyOps]
    rw [if_neg hng, if_pos hm]

/-- Witness for C1: a POST request presenting `tokA`, with `tokA` in the
store. -/
theorem csrf_unsafe_valid_token_continues_witness :
    isUnsafeMethod postValidReq.method = true ∧
    extract ext0 postValidReq = .ok "tokA" ∧
    TokenStore.contains ["tokA"] "tokA" = true ∧
    ((handle cfg0 ext0 ["tokA"] 0 postValidReq).outcome = .next ∧
      applyOps ["tokA"] (handle cfg0 ext0 ["tokA"] 0 postValidReq).ops = ["tokA"] ∧
      TokenStore.contains (applyOps ["tokA"] (handle cfg0 ext0 ["tokA"] 0 postValidReq).ops) "tokA" = true ∧
      (handle cfg0 ext0 (applyOps ["tokA"] (handle cfg0 ext0 ["tokA"] 0 postValidReq).ops) 0 postValidReq).outcome = .next) :=
  ⟨by decide, rfl, by decide,
    csrf_unsafe_valid_token_continues cfg0 ext0 ["tokA"] 0 postValidReq "tokA"
      (by decide) rfl (by decide)⟩

/-- Claim C2: for every unsafe-method request whose extracted token is not
in the token store, the middleware rejects with `fiber.ErrForbidden`
(HTTP 403), deletes the token from the store so a subsequent `contains` is
false, and attaches a Set-Cookie for the CSRF cookie whose expiry lies in
the past. -/
theorem csrf_unsafe_invalid_token_rejected (cfg : Config) (ext : ExtractorConfig)
    (st : TokenStore) (now : Int) (c : Request) (t : String)
    (hb : bypass cfg c = false)
    (hm : isUnsafeMethod c.method = true)
    (he : extract ext c = .ok t)
    (hs : TokenStore.contains st t = false) :
    (handle cfg ext st now c).outcome = .reject errForbidden ∧
    errForbidden.Code = 403 ∧
    StoreOp.delete t ∈ (handle cfg ext st now c).ops ∧
    TokenStore.contains (applyOps st (handle cfg ext st now c).ops) t = false ∧
    (handle cfg ext st now c).resp.setCookies = [expireCookie cfg now] ∧
    (expireCookie cfg now).Name = cfg.CookieName ∧
    (expireCookie cfg now).Expires < now := by
  have hng := isUnsafeMethod_ne_get hm
  unfold handle methodSwitch
  simp only [hb, Bool.false_eq_true, if_false]
  rw [if_neg hng, if_pos hm, he]
  simp [storageGet, hs, applyOps, contains_delete_self, expireCookie, errForbidden]

/-- Witness for C2: a POST request presenting `tokB`, with only `tokA` in
the store. -/
theorem csrf_unsafe_invalid_token_rejected_witness :
    bypass cfg0 postTokBReq = false ∧
    isUnsafeMethod postTokBReq.method = true ∧
    extract ext0 postTokBReq = .ok "tokB" ∧
    TokenStore.contains ["tokA"] "tokB" = false ∧
    ((handle cfg0 ext0 ["tokA"] 7 postTokBReq).outcome = .reject errForbidden ∧
      errForbidden.Code = 403 ∧
      StoreOp.delete "tokB" ∈ (handle cfg0 ext0 ["tokA"] 7 postTokBReq).ops ∧
      TokenStore.contains (applyOps ["tokA"] (handle cfg0 ext0 ["tokA"] 7 postTokBReq).ops) "tokB" = false ∧
      (handle cfg0 ext0 ["tokA"] 7 postTokBReq).resp.setCookies = [expireCookie cfg0 7] ∧
      (expireCookie cfg0 7).Name = cfg0.CookieName ∧
      (expireCookie cfg0 7).Expires < 7) :=
  ⟨by decide, by decide, rfl, by decide,
    csrf_unsafe_invalid_token_rejected cfg0 ext0 ["tokA"] 7 postTokBReq "tokB"
      (by decide) (by decide) rfl (by decide)⟩

/-- Claim C3: for every GET request with no CSRF cookie on the incoming
request, the middleware generates a fresh token with the configured
generator, registers it in the token store (so `contains` is true
immediately after), and attaches a Set-Cookie carrying that token. -/
theorem csrf_get_no_cookie_issues_token (cfg : Config) (ext : ExtractorConfig)
    (st : TokenStore) (now : Int) (c : Request)
    (hb : bypass cfg c = false)
    (hm : c.method = "GET")
    (hc : c.Cookies cfg.CookieName = "") :
    (handle cfg ext st now c).outcome = .next ∧
    (handle cfg ext st now c).ops = [StoreOp.set (cfg.KeyGenerator ())] ∧
    TokenStore.contains (applyOps st (handle cfg ext st now c).ops) (cfg.KeyGenerator ()) = true ∧
    (handle cfg ext st now c).resp.setCookies = [issueCookie cfg now (cfg.KeyGenerator ())] ∧
    (issueCookie cfg now (cfg.KeyGenerator ())).Value = cfg.KeyGenerator () := by
  unfold handle methodSwitch
  simp only [hb, Bool.false_eq_true, if_false]
  rw [if_pos hm, hc]
  simp [applyOps, contains_set_self, issueCookie]

/-- Witness for C3: a GET request with no cookies against the empty store. -/
theorem csrf_get_no_cookie_issues_token_witness :
    bypass cfg0 getNoCookieReq = false ∧
    getNoCookieReq.method = "GET" ∧
    getNoCookieReq.Cookies cfg0.CookieName = "" ∧
    ((handle cfg0 ext0 [] 0 getNoCookieReq).outcome = .next ∧
      (handle cfg0 ext0 [] 0 getNoCookieReq).ops = [StoreOp.set (cfg0.KeyGenerator ())] ∧
      TokenStore.contains (applyOps [] (handle cfg0 ext0 [] 0 getNoCookieReq).ops) (cfg0.KeyGenerator ()) = true ∧
      (handle cfg0 ext0 [] 0 getNoCookieReq).resp.setCookies = [issueCookie cfg0 0 (cfg0.KeyGenerator ())] ∧
      (issueCookie cfg0 0 (cfg0.KeyGenerator ())).Value = cfg0.KeyGenerator ()) :=
  ⟨by decide, rfl, by decide,
    csrf_get_no_cookie_issues_token cfg0 ext0 [] 0 getNoCookieReq
      (by decide) rfl (by decide)⟩

/-- Claim C4: for every unsafe-method request where the active extractor
fails, the middleware rejects with `fiber.ErrForbidden` (HTTP 403), the
token store sees no operation at all (no read, write or delete), and the
response carries no cookie, no Vary header and no locals. -/
theorem csrf_extraction_failure_rejected (cfg : Config) (ext : ExtractorConfig)
    (st : TokenStore) (now : Int) (c : Request) (e : ExtractError)
    (hb : bypass cfg c = false)
    (hm : isUnsafeMethod c.method = true)
    (he : extract ext c = .error e) :
    (handle cfg ext st now c).outcome = .reject errForbidden ∧
    errForbidden.Code = 403 ∧
    (handle cfg ext st now c).ops = [] ∧
    (handle cfg ext st now c).resp = Response.empty := by
  have hng := isUnsafeMethod_ne_get hm
  unfold handle methodSwitch
  simp only [hb, Bool.false_eq_true, if_false]
  rw [if_neg hng, if_pos hm, he]
  simp [Response.empty, errForbidden]

/-- Witness for C4: a POST request presenting no token anywhere. -/
theorem csrf_extraction_failure_rejected_witness :
    bypass cfg0 postNoTokenReq = false ∧
    isUnsafeMethod postNoTokenReq.method = true ∧
    extract ext0 postNoTokenReq = .error ExtractError.missingHeader ∧
    ((handle cfg0 ext0 [] 0 postNoTokenReq).outcome = .reject errForbidden ∧
      errForbidden.Code = 403 ∧
      (handle cfg0 ext0 [] 0 postNoTokenReq).ops = [] ∧
      (handle cfg0 ext0 [] 0 postNoTokenReq).resp = Response.empty) :=
  ⟨by decide, by decide, rfl,
    csrf_extraction_failure_rejected cfg0 ext0 [] 0 postNoTokenReq ExtractError.missingHeader
      (by decide) (by decide) rfl⟩

/-- Counterexample to C5 as stated: a handled (not bypassed) POST request
whose extraction fails is rejected, and its response carries no Vary
header at all — `c.Vary(fiber.HeaderCookie)` sits after the method switch
and the rejection paths return before reaching it. -/
theorem csrf_vary_missing_on_rejection :
    bypass cfg0 postNoTokenReq = false ∧
    (handle cfg0 ext0 [] 0 postNoTokenReq).outcome = .reject errForbidden ∧
    (handle cfg0 ext0 [] 0 postNoTokenReq).resp.vary = [] := by
  decide

/-- Claim C5 as amended: on every handled (not bypassed) request that
continues to the next handler, the `Vary: Cookie` header is set; on every
handled request that is rejected, no Vary header is set. -/
theorem csrf_vary_only_on_continue (cfg : Config) (ext : ExtractorConfig)
    (st : TokenStore) (now : Int) (c : Request)
    (hb : bypass cfg c = false) :
    ((handle cfg ext st now c).outcome = .next →
      (handle cfg ext st now c).resp.vary = ["Cookie"]) ∧
    (∀ e, (handle cfg ext st now c).outcome = .reject e →
      (handle cfg ext st now c).resp.vary = []) := by
  unfold handle
  simp only [hb, Bool.false_eq_true, if_false]
  rcases h : methodSwitch cfg ext st now c with ⟨ops, cookies, ex⟩
  cases ex <;> simp

/-- Witness for the amended C5 at a GET request with no cookie. -/
theorem csrf_vary_only_on_continue_witness :
    bypass cfg0 getNoCookieReq = false ∧
    (((handle cfg0 ext0 [] 0 getNoCookieReq).outcome = .next →
        (handle cfg0 ext0 [] 0 getNoCookieReq).resp.vary = ["Cookie"]) ∧
      (∀ e, (handle cfg0 ext0 [] 0 getNoCookieReq).outcome = .reject e →
        (handle cfg0 ext0 [] 0 getNoCookieReq).resp.vary = [])) :=
  ⟨by decide, csrf_vary_only_on_continue cfg0 ext0 [] 0 getNoCookieReq (by decide)⟩

/-- Claim C6: initialization fails (a Go panic, before any request is
handled) exactly when `KeyLookup` does not split into exactly two
colon-separated parts, or when it does and the source part is `cookie`
with the key part equal to `CookieName`. -/
theorem csrf_init_fails_iff (kl cn : String) :
    initPanics kl cn = true ↔
      ((splitColon kl).length ≠ 2 ∨
        ((splitColon kl).length = 2 ∧
          (splitColon kl).headD "" = "cookie" ∧ (splitColon kl).getD 1 "" = cn)) := by
  unfold initPanics newInit
  dsimp only
  split_ifs with h1 h2 h3 h4 h5 h6 <;> simp_all

/-- Claim C7: for every GET request already carrying a token in the CSRF
cookie, the token is reused as-is with no token-store operation at all,
and the Set-Cookie response is still attached with that same token and a
refreshed expiry of now plus `Expiration`. -/
theorem csrf_get_existing_cookie_reused (cfg : Config) (ext : ExtractorConfig)
    (st : TokenStore) (now : Int) (c : Request) (t : String)
    (hb : bypass cfg c = false)
    (hm : c.method = "GET")
    (hc : c.Cookies cfg.CookieName = t)
    (hne : t ≠ "") :
    (handle cfg ext st now c).outcome = .next ∧
    (handle cfg ext st now c).ops = [] ∧
    (handle cfg ext st now c).resp.setCookies = [issueCookie cfg now t] ∧
    (issueCookie cfg now t).Value = t ∧
    (issueCookie cfg now t).Expires = now + cfg.Expiration := by
  unfold handle methodSwitch
  simp only [hb, Bool.false_eq_true, if_false]
  rw [if_pos hm, hc]
  simp [hne, issueCookie]

/-- Witness for C7: a GET request whose cookie already carries `tokA`. -/
theorem csrf_get_existing_cookie_reused_witness :
    bypass cfg0 getWithCookieReq = false ∧
    getWithCookieReq.method = "GET" ∧
    getWithCookieReq.Cookies cfg0.CookieName = "tokA" ∧
    "tokA" ≠ "" ∧
    ((handle cfg0 ext0 [] 3 getWithCookieReq).outcome = .next ∧
      (handle cfg0 ext0 [] 3 getWithCookieReq).ops = [] ∧
      (handle cfg0 ext0 [] 3 getWithCookieReq).resp.setCookies = [issueCookie cfg0 3 "tokA"] ∧
      (issueCookie cfg0 3 "tokA").Value = "tokA" ∧
      (issueCookie cfg0 3 "tokA").Expires = 3 + cfg0.Expiration) :=
  ⟨by decide, rfl, by decide, by decide,
    csrf_get_existing_cookie_reused cfg0 ext0 [] 3 getWithCookieReq "tokA"
      (by decide) rfl (by decide) (by decide)⟩

/-- Claim C8: when the bypass predicate `Next` returns true for a request,
the handler performs none of its logic — no token-store operation, no
cookie, no Vary header, no locals — and the request continues to the next
handler, whatever its method. -/
theorem csrf_next_bypasses_all (cfg : Config) (ext : ExtractorConfig)
    (st : TokenStore) (now : Int) (c : Request)
    (hb : bypass cfg c = true) :
    handle cfg ext st now c =
      { outcome := .next, ops := [], resp := Response.empty } := by
  simp [handle, hb]

/-- Witness for C8: an always-true bypass predicate on a HEAD request. -/
theorem csrf_next_bypasses_all_witness :
    bypass cfgBypass headReq = true ∧
    handle cfgBypass ext0 [] 0 headReq =
      { outcome := .next, ops := [], resp := Response.empty } :=
  ⟨rfl, csrf_next_bypasses_all cfgBypass ext0 [] 0 headReq rfl⟩

/-- Claim C9: when `KeyLookup` has exactly two parts and its source
keyword is none of `form`, `query`, `param`, `cookie`, initialization
succeeds and selects the header-source extractor on the canonicalized key
name. -/
theorem csrf_unknown_source_defaults_to_header (kl cn : String)
    (h2 : (splitColon kl).length = 2)
    (hs : (splitColon kl).headD "" ∉ (["form", "query", "param", "cookie"] : List String)) :
    newInit kl cn = .ok ⟨Source.header, canonicalMIMEHeaderKey ((splitColon kl).getD 1 "")⟩ := by
  unfold newInit
  simp only [List.mem_cons, List.mem_singleton] at hs
  push_neg at hs
  dsimp only
  split_ifs <;> simp_all

/-- Witness for C9: the unrecognized source keyword `body`. -/
theorem csrf_unknown_source_defaults_to_header_witness :
    (splitColon "body:my_token").length = 2 ∧
    (splitColon "body:my_token").headD "" ∉ (["form", "query", "param", "cookie"] : List String) ∧
    newInit "body:my_token" "csrf_" =
      .ok ⟨Source.header, canonicalMIMEHeaderKey ((splitColon "body:my_token").getD 1 "")⟩ :=
  ⟨by decide, by decide,
    csrf_unknown_source_defaults_to_header "body:my_token" "csrf_" (by decide) (by decide)⟩

/-- Claim C10: requests whose method is outside GET, POST, PUT, PATCH and
DELETE take neither the issue path nor the verify path: no token-store
operation, no cookie, the request continues with only the `Vary: Cookie`
header and, when `ContextKey` is configured, the locals slot set to the
empty string. -/
theorem csrf_other_methods_pass_through (cfg : Config) (ext : ExtractorConfig)
    (st : TokenStore) (now : Int) (c : Request)
    (hb : bypass cfg c = false)
    (hm : c.method ∉ (["GET", "POST", "DELETE", "PATCH", "PUT"] : List String)) :
    (handle cfg ext st now c).outcome = .next ∧
    (handle cfg ext st now c).ops = [] ∧
    (handle cfg ext st now c).resp.setCookies = [] ∧
    (handle cfg ext st now c).resp.vary = ["Cookie"] ∧
    (handle cfg ext st now c).resp.locals =
      (if cfg.ContextKey ≠ "" then [(cfg.ContextKey, "")] else []) := by
  simp only [List.mem_cons, List.mem_singleton] at hm
  push_neg at hm
  obtain ⟨h1, h2, h3, h4, h5⟩ := hm
  have hu : isUnsafeMethod c.method = false := by
    simp [isUnsafeMethod, h2, h3, h4, h5]
  unfold handle methodSwitch
  simp only [hb, Bool.false_eq_true, if_false]
  rw [if_neg h1, if_neg (by simp [hu] : ¬ (isUnsafeMethod c.method = true))]
  simp

/-- Witness for C10: a HEAD request. -/
theorem csrf_other_methods_pass_through_witness :
    bypass cfg0 headReq = false ∧
    headReq.method ∉ (["GET", "POST", "DELETE", "PATCH", "PUT"] : List String) ∧
    ((handle cfg0 ext0 [] 0 headReq).outcome = .next ∧
      (handle cfg0 ext0 [] 0 headReq).ops = [] ∧
      (handle cfg0 ext0 [] 0 headReq).resp.setCookies = [] ∧
      (handle cfg0 ext0 [] 0 headReq).resp.vary = ["Cookie"] ∧
      (handle cfg0 ext0 [] 0 headReq).resp.locals =
        (if cfg0.ContextKey ≠ "" then [(cfg0.ContextKey, "")] else [])) :=
  ⟨by decide, by decide,
    csrf_other_methods_pass_through cfg0 ext0 [] 0 headReq (by decide) (by decide)⟩

end Csrf
